import Mathlib

/-!
Verification development for the DownPour glTF tooling repository.

Shallow embedding conventions:
* A glTF source document is modelled by structures whose optional fields are
  `Option` values: `none` means the field is absent from the source JSON
  (the pygltflib loader reports such fields as Python `None`).
* The converter (`src/tools/GLTFTools/python/converter.py`) builds Python
  dicts whose keys are inserted conditionally; each output dict is modelled
  by a structure in which an `Option` field equal to `none` means the key is
  omitted from the emitted JSON, and a non-`Option` field is a key that is
  always emitted.
* Python truthiness tests (`if node.name:` and friends) are modelled by the
  `truthy*` helpers below; `x is not None` tests pass the `Option` through.
* Python floats are modelled by `ℚ`; the discrepancies at issue in the
  claims are far larger than any floating-point rounding.
* Code that can raise (`self.gltf.accessors[i]` with an out-of-range index
  raises `IndexError`) is modelled in the `Option` monad, `none` standing
  for the raised exception.
-/

namespace DownPour

/-- Python truthiness for an optional string attribute: `if s:` succeeds
exactly when the attribute is present and non-empty. -/
def truthyStr : Option String → Option String
  | none => none
  | some s => if s = "" then none else some s

/-- Python truthiness for an optional list attribute: `if l:` succeeds
exactly when the attribute is present and non-empty. -/
def truthyList {α : Type} : Option (List α) → Option (List α)
  | none => none
  | some [] => none
  | some (a :: l) => some (a :: l)

/-- Python truthiness for an optional integer attribute: `if n:` succeeds
exactly when the attribute is present and nonzero. -/
def truthyInt : Option Int → Option Int
  | none => none
  | some n => if n = 0 then none else some n

theorem truthyStr_eq_some {o : Option String} {s : String} :
    truthyStr o = some s ↔ o = some s ∧ s ≠ "" := by
  cases o with
  | none => simp [truthyStr]
  | some t =>
    by_cases ht : t = "" <;> simp [truthyStr, ht] <;> intro h <;> simp [← h, ht]

theorem truthyStr_none_of_none : truthyStr none = none := rfl

theorem truthyList_eq_some {α : Type} {o : Option (List α)} {l : List α} :
    truthyList o = some l ↔ o = some l ∧ l ≠ [] := by
  cases o with
  | none => simp [truthyList]
  | some t =>
    cases t with
    | nil => simp [truthyList]
    | cons a t =>
      simp only [truthyList, Option.some_inj]
      constructor
      · intro h
        exact ⟨by simp [h], by simp [← h]⟩
      · intro h
        exact h.1

theorem truthyInt_eq_some {o : Option Int} {n : Int} :
    truthyInt o = some n ↔ o = some n ∧ n ≠ 0 := by
  cases o with
  | none => simp [truthyInt]
  | some t =>
    by_cases ht : t = 0 <;> simp [truthyInt, ht] <;> intro h <;> simp [← h, ht]

/-! ## Source document model (pygltflib view of a glTF document) -/

/-- A glTF texture reference (`TextureInfo`): required `index`, optional
`texCoord`. -/
structure TextureRef where
  index : Nat
  texCoord : Option Nat := none
deriving DecidableEq

/-- A glTF normal-texture reference: additionally an optional `scale`. -/
structure NormalTextureRef where
  index : Nat
  texCoord : Option Nat := none
  scale : Option ℚ := none
deriving DecidableEq

/-- The `pbrMetallicRoughness` material block. -/
structure PbrMetallicRoughness where
  baseColorFactor : Option (List ℚ) := none
  metallicFactor : Option ℚ := none
  roughnessFactor : Option ℚ := none
  baseColorTexture : Option TextureRef := none
  metallicRoughnessTexture : Option TextureRef := none
deriving DecidableEq

/-- A glTF material. -/
structure Material where
  name : Option String := none
  pbrMetallicRoughness : Option PbrMetallicRoughness := none
  normalTexture : Option NormalTextureRef := none
  emissiveFactor : Option (List ℚ) := none
  emissiveTexture : Option TextureRef := none
  alphaMode : Option String := none
  alphaCutoff : Option ℚ := none
  doubleSided : Option Bool := none
deriving DecidableEq

/-- A glTF node. -/
structure Node where
  name : Option String := none
  mesh : Option Nat := none
  camera : Option Nat := none
  skin : Option Nat := none
  children : Option (List Nat) := none
  matrix : Option (List ℚ) := none
  translation : Option (List ℚ) := none
  rotation : Option (List ℚ) := none
  scale : Option (List ℚ) := none
deriving DecidableEq

/-- A glTF accessor. -/
structure Accessor where
  componentType : Nat
  count : Nat
  type : String
  bufferView : Option Nat := none
  byteOffset : Option Int := none
  normalized : Option Bool := none
  min : Option (List ℚ) := none
  max : Option (List ℚ) := none
  name : Option String := none
deriving DecidableEq

/-- The attribute slots of a mesh primitive read by the converter. -/
structure Attributes where
  POSITION : Option Nat := none
  NORMAL : Option Nat := none
  TEXCOORD_0 : Option Nat := none
  COLOR_0 : Option Nat := none
deriving DecidableEq

/-- A mesh primitive. -/
structure Primitive where
  attributes : Attributes := {}
  indices : Option Nat := none
  material : Option Nat := none
  mode : Option Nat := none
deriving DecidableEq

/-- A glTF mesh. -/
structure Mesh where
  name : Option String := none
  primitives : List Primitive := []
  weights : Option (List ℚ) := none
deriving DecidableEq

/-- A glTF scene. -/
structure Scene where
  name : Option String := none
  nodes : Option (List Nat) := none
deriving DecidableEq

/-- A glTF texture. -/
structure Texture where
  name : Option String := none
  source : Option Nat := none
  sampler : Option Nat := none
deriving DecidableEq

/-- A glTF image. -/
structure Image where
  name : Option String := none
  uri : Option String := none
  mimeType : Option String := none
  bufferView : Option Nat := none
deriving DecidableEq

/-- A glTF buffer: `byteLength` is required by the format. -/
structure Buffer where
  byteLength : Int
  uri : Option String := none
  name : Option String := none
deriving DecidableEq

/-- The parts of a loaded glTF document that the converter walks. -/
structure GLTF where
  scenes : List Scene := []
  nodes : List Node := []
  meshes : List Mesh := []
  materials : List Material := []
  textures : List Texture := []
  images : List Image := []
  buffers : List Buffer := []
  accessors : List Accessor := []
deriving DecidableEq

/-! ## Converter output model

Each structure mirrors one of the dicts built by
`GLTFConverter.extract_*`; an `Option` field that is `none` is a key the
converter leaves out of the dict. -/

/-- Output of `extract_scenes` for one scene: the `nodes` key is always
emitted (`scene.nodes if scene.nodes else []`). -/
structure SceneOut where
  index : Nat
  nodes : List Nat
  name : Option String
deriving DecidableEq

/-- Output of `extract_nodes` for one node. -/
structure NodeOut where
  index : Nat
  name : Option String
  mesh : Option Nat
  camera : Option Nat
  skin : Option Nat
  children : Option (List Nat)
  matrix : Option (List ℚ)
  translation : Option (List ℚ)
  rotation : Option (List ℚ)
  scale : Option (List ℚ)
deriving DecidableEq

/-- An emitted texture reference: the converter always writes `texCoord`,
defaulting it to 0 when the source leaves it out. -/
structure TexRefOut where
  index : Nat
  texCoord : Nat
deriving DecidableEq

/-- An emitted normal-texture reference: `texCoord` defaults to 0 and
`scale` to 1.0 when absent from the source. -/
structure NormalTexOut where
  index : Nat
  texCoord : Nat
  scale : ℚ
deriving DecidableEq

/-- The emitted `pbrMetallicRoughness` block. -/
structure PbrOut where
  baseColorFactor : Option (List ℚ)
  metallicFactor : Option ℚ
  roughnessFactor : Option ℚ
  baseColorTexture : Option TexRefOut
  metallicRoughnessTexture : Option TexRefOut
deriving DecidableEq

/-- Output of `extract_materials` for one material. -/
structure MaterialOut where
  index : Nat
  name : Option String
  pbrMetallicRoughness : Option PbrOut
  normalTexture : Option NormalTexOut
  emissiveFactor : Option (List ℚ)
  emissiveTexture : Option TexRefOut
  alphaMode : Option String
  alphaCutoff : Option ℚ
  doubleSided : Option Bool
deriving DecidableEq

/-- Output of `extract_accessors` for one accessor. -/
structure AccessorOut where
  index : Nat
  componentType : Nat
  count : Nat
  type : String
  bufferView : Option Nat
  byteOffset : Option Int
  normalized : Option Bool
  min : Option (List ℚ)
  max : Option (List ℚ)
  name : Option String
deriving DecidableEq

/-- The emitted record for one attribute (or indices) accessor reference of
a primitive. -/
structure AttrOut where
  accessor : Nat
  count : Nat
  type : String
  componentType : Nat
deriving DecidableEq

/-- The emitted `attributes` dict of a primitive. -/
structure AttributesOut where
  POSITION : Option AttrOut
  NORMAL : Option AttrOut
  TEXCOORD_0 : Option AttrOut
  COLOR_0 : Option AttrOut
deriving DecidableEq

/-- The emitted record for one primitive: `mode` is always written, with
default 4 (TRIANGLES). -/
structure PrimOut where
  index : Nat
  mode : Nat
  attributes : AttributesOut
  material : Option Nat
  indices : Option AttrOut
deriving DecidableEq

/-- Output of `extract_meshes` for one mesh. -/
structure MeshOut where
  index : Nat
  primitives : List PrimOut
  name : Option String
  weights : Option (List ℚ)
deriving DecidableEq

/-- Output of `extract_textures` for one texture. -/
structure TextureOut where
  index : Nat
  name : Option String
  source : Option Nat
  sampler : Option Nat
deriving DecidableEq

/-- Output of `extract_images` for one image. -/
structure ImageOut where
  index : Nat
  name : Option String
  uri : Option String
  mimeType : Option String
  bufferView : Option Nat
deriving DecidableEq

/-- Output of `extract_buffers` for one buffer: `byteLength` is always
emitted. -/
structure BufferOut where
  index : Nat
  byteLength : Int
  uri : Option String
  name : Option String
deriving DecidableEq

/-! ## The extraction functions -/

/-- Python's `for idx, x in enumerate(l)` loop body `f idx x`, appending the
results, starting the counter at `k`. -/
def enumMap {α β : Type} (f : Nat → α → β) : Nat → List α → List β
  | _, [] => []
  | i, a :: as => f i a :: enumMap f (i + 1) as

theorem enumMap_get? {α β : Type} (f : Nat → α → β) (l : List α) :
    ∀ k i, (enumMap f k l).get? i = (l.get? i).map fun a => f (k + i) a := by
  induction l with
  | nil => intro k i; simp [enumMap]
  | cons a as ih =>
    intro k i
    cases i with
    | zero => simp [enumMap]
    | succ j =>
      simp only [enumMap, List.get?_cons_succ, ih (k + 1) j]
      have : k + 1 + j = k + (j + 1) := by omega
      rw [this]

theorem enumMap_map_proj {α β : Type} (f : Nat → α → β) (proj : β → Nat)
    (hp : ∀ i a, proj (f i a) = i) (l : List α) :
    ∀ k, (enumMap f k l).map proj = List.range' k l.length := by
  induction l with
  | nil => intro k; simp [enumMap]
  | cons a as ih => intro k; simp [enumMap, List.range', hp, ih]

/-- Body of the `extract_scenes` loop (converter.py lines 64-73). -/
def sceneOut (idx : Nat) (s : Scene) : SceneOut :=
  { index := idx
    nodes := (truthyList s.nodes).getD []
    name := truthyStr s.name }

/-- Embeds `GLTFConverter.extract_scenes` (converter.py lines 58-75). -/
def extract_scenes (g : GLTF) : List SceneOut := enumMap sceneOut 0 g.scenes

/-- Body of the `extract_nodes` loop (converter.py lines 83-117). -/
def nodeOut (idx : Nat) (n : Node) : NodeOut :=
  { index := idx
    name := truthyStr n.name
    mesh := n.mesh
    camera := n.camera
    skin := n.skin
    children := truthyList n.children
    matrix := truthyList n.matrix
    translation := truthyList n.translation
    rotation := truthyList n.rotation
    scale := truthyList n.scale }

/-- Embeds `GLTFConverter.extract_nodes` (converter.py lines 77-119). -/
def extract_nodes (g : GLTF) : List NodeOut := enumMap nodeOut 0 g.nodes

/-- An emitted texture reference (converter.py lines 232-235 and
similar): `texCoord` is defaulted to 0 when the source omits it. -/
def texRefOut (t : TextureRef) : TexRefOut :=
  { index := t.index, texCoord := t.texCoord.getD 0 }

/-- The emitted normal-texture reference (converter.py lines 245-249):
`texCoord` defaults to 0 and `scale` to 1.0. -/
def normalTexOut (t : NormalTextureRef) : NormalTexOut :=
  { index := t.index, texCoord := t.texCoord.getD 0, scale := t.scale.getD 1 }

/-- The emitted `pbrMetallicRoughness` block (converter.py lines 218-241). -/
def pbrOut (p : PbrMetallicRoughness) : PbrOut :=
  { baseColorFactor := truthyList p.baseColorFactor
    metallicFactor := p.metallicFactor
    roughnessFactor := p.roughnessFactor
    baseColorTexture := p.baseColorTexture.map texRefOut
    metallicRoughnessTexture := p.metallicRoughnessTexture.map texRefOut }

/-- Body of the `extract_materials` loop (converter.py lines 209-271). -/
def materialOut (idx : Nat) (m : Material) : MaterialOut :=
  { index := idx
    name := truthyStr m.name
    pbrMetallicRoughness := m.pbrMetallicRoughness.map pbrOut
    normalTexture := m.normalTexture.map normalTexOut
    emissiveFactor := truthyList m.emissiveFactor
    emissiveTexture := m.emissiveTexture.map texRefOut
    alphaMode := truthyStr m.alphaMode
    alphaCutoff := m.alphaCutoff
    doubleSided := m.doubleSided }

/-- Embeds `GLTFConverter.extract_materials` (converter.py lines 203-273). -/
def extract_materials (g : GLTF) : List MaterialOut :=
  enumMap materialOut 0 g.materials

/-- Body of the `extract_accessors` loop (converter.py lines 354-380). -/
def accessorOut (idx : Nat) (a : Accessor) : AccessorOut :=
  { index := idx
    componentType := a.componentType
    count := a.count
    type := a.type
    bufferView := a.bufferView
    byteOffset := truthyInt a.byteOffset
    normalized := a.normalized
    min := truthyList a.min
    max := truthyList a.max
    name := truthyStr a.name }

/-- Embeds `GLTFConverter.extract_accessors` (converter.py lines 348-382). -/
def extract_accessors (g : GLTF) : List AccessorOut :=
  enumMap accessorOut 0 g.accessors

/-- Body of the `extract_textures` loop (converter.py lines 281-295). -/
def textureOut (idx : Nat) (t : Texture) : TextureOut :=
  { index := idx
    name := truthyStr t.name
    source := t.source
    sampler := t.sampler }

/-- Embeds `GLTFConverter.extract_textures` (converter.py lines 275-297). -/
def extract_textures (g : GLTF) : List TextureOut :=
  enumMap textureOut 0 g.textures

/-- Body of the `extract_images` loop (converter.py lines 305-322). -/
def imageOut (idx : Nat) (im : Image) : ImageOut :=
  { index := idx
    name := truthyStr im.name
    uri := truthyStr im.uri
    mimeType := truthyStr im.mimeType
    bufferView := im.bufferView }

/-- Embeds `GLTFConverter.extract_images` (converter.py lines 299-324). -/
def extract_images (g : GLTF) : List ImageOut := enumMap imageOut 0 g.images

/-- Body of the `extract_buffers` loop (converter.py lines 332-344). -/
def bufferOut (idx : Nat) (b : Buffer) : BufferOut :=
  { index := idx
    byteLength := b.byteLength
    uri := truthyStr b.uri
    name := truthyStr b.name }

/-- Embeds `GLTFConverter.extract_buffers` (converter.py lines 326-346). -/
def extract_buffers (g : GLTF) : List BufferOut := enumMap bufferOut 0 g.buffers

/-- One accessor reference inside `extract_meshes`
(`self.gltf.accessors[ref]`, converter.py lines 151-195): `none` models the
absent attribute, `some none` — wrapped the other way — cannot occur; the
outer `Option` is the `IndexError` raised when the reference is out of
range. -/
def attrRefOut (accessors : List Accessor) : Option Nat → Option (Option AttrOut)
  | none => some none
  | some r =>
    match accessors.get? r with
    | none => none
    | some a =>
      some (some { accessor := r, count := a.count, type := a.type
                   componentType := a.componentType })

/-- Body of the primitive loop of `extract_meshes` (converter.py lines
140-197); the outer `Option` is the unguarded `IndexError`. -/
def primOut (accessors : List Accessor) (idx : Nat) (p : Primitive) :
    Option PrimOut :=
  match attrRefOut accessors p.attributes.POSITION,
      attrRefOut accessors p.attributes.NORMAL,
      attrRefOut accessors p.attributes.TEXCOORD_0,
      attrRefOut accessors p.attributes.COLOR_0,
      attrRefOut accessors p.indices with
  | some pos, some nor, some tex, some col, some ind =>
    some { index := idx
           mode := p.mode.getD 4
           attributes :=
             { POSITION := pos, NORMAL := nor, TEXCOORD_0 := tex
               COLOR_0 := col }
           material := p.material
           indices := ind }
  | _, _, _, _, _ => none

/-- The primitive loop of `extract_meshes`, counter starting at `k`. -/
def primsOut (accessors : List Accessor) : Nat → List Primitive → Option (List PrimOut)
  | _, [] => some []
  | k, p :: ps =>
    match primOut accessors k p, primsOut accessors (k + 1) ps with
    | some o, some os => some (o :: os)
    | _, _ => none

/-- Body of the mesh loop of `extract_meshes` (converter.py lines 127-199). -/
def meshOut (accessors : List Accessor) (idx : Nat) (m : Mesh) : Option MeshOut :=
  (primsOut accessors 0 m.primitives).map fun ps =>
    { index := idx
      primitives := ps
      name := truthyStr m.name
      weights := truthyList m.weights }

/-- The mesh loop, counter starting at `k`. -/
def meshesOut (accessors : List Accessor) : Nat → List Mesh → Option (List MeshOut)
  | _, [] => some []
  | k, m :: ms =>
    match meshOut accessors k m, meshesOut accessors (k + 1) ms with
    | some o, some os => some (o :: os)
    | _, _ => none

/-- Embeds `GLTFConverter.extract_meshes` (converter.py lines 121-201); `none`
models the run in which the unguarded `IndexError` escapes. -/
def extract_meshes (g : GLTF) : Option (List MeshOut) :=
  meshesOut g.accessors 0 g.meshes

/-- The collection part of `GLTFConverter.convert_to_json` (converter.py
lines 384-410) with `include_accessors=True`. -/
structure DocOut where
  scenes : List SceneOut
  nodes : List NodeOut
  meshes : List MeshOut
  materials : List MaterialOut
  textures : List TextureOut
  images : List ImageOut
  buffers : List BufferOut
  accessors : List AccessorOut
deriving DecidableEq

/-- Embeds `GLTFConverter.convert_to_json` (converter.py lines 384-410): the whole
conversion fails when `extract_meshes` raises. -/
def convert_to_json (g : GLTF) : Option DocOut :=
  (extract_meshes g).map fun ms =>
    { scenes := extract_scenes g
      nodes := extract_nodes g
      meshes := ms
      materials := extract_materials g
      textures := extract_textures g
      images := extract_images g
      buffers := extract_buffers g
      accessors := extract_accessors g }

/-! ## Validity of accessor references (claim C9) -/

/-- One optional accessor reference is in range. -/
def refOk (n : Nat) : Option Nat → Bool
  | none => true
  | some r => r < n

/-- All five accessor references of a primitive are in range. -/
def primRefsOk (n : Nat) (p : Primitive) : Bool :=
  refOk n p.attributes.POSITION && refOk n p.attributes.NORMAL &&
    refOk n p.attributes.TEXCOORD_0 && refOk n p.attributes.COLOR_0 &&
    refOk n p.indices

/-- All accessor references of a mesh are in range. -/
def meshRefsOk (n : Nat) (m : Mesh) : Bool := m.primitives.all (primRefsOk n)

/-- Every primitive attribute/indices reference in the document is a valid
index into its accessors list. -/
def gltfRefsOk (g : GLTF) : Bool :=
  g.meshes.all (meshRefsOk g.accessors.length)

/-! ## The car inspector's glass-keyword heuristic (inspect_car.py) -/

/-- Tests whether `needle` occurs at the start of `hay` (character lists). -/
def startsWithChars : List Char → List Char → Bool
  | _, [] => true
  | [], _ :: _ => false
  | h :: hs, n :: ns => h == n && startsWithChars hs ns

/-- Python's substring test `needle in hay` on character lists. -/
def containsChars : List Char → List Char → Bool
  | [], ns => ns.isEmpty
  | h :: hs, ns => startsWithChars (h :: hs) ns || containsChars hs ns

/-- Python's `needle in hay` on strings. -/
def pyContains (hay needle : String) : Bool := containsChars hay.data needle.data

theorem startsWithChars_iff (ns : List Char) :
    ∀ l, startsWithChars l ns = true ↔ ns <+: l := by
  induction ns with
  | nil => intro l; simp [startsWithChars]
  | cons n ns ih =>
    intro l
    cases l with
    | nil => simp [startsWithChars, List.prefix_nil]
    | cons h hs =>
      have hdef : startsWithChars (h :: hs) (n :: ns)
          = (h == n && startsWithChars hs ns) := rfl
      rw [hdef, Bool.and_eq_true, beq_iff_eq, List.cons_prefix_cons, ih hs]
      exact and_congr_left fun _ => eq_comm

theorem containsChars_iff (ns : List Char) :
    ∀ hay, containsChars hay ns = true ↔ ns <:+: hay := by
  intro hay
  induction hay with
  | nil => simp [containsChars, List.infix_nil, List.isEmpty_iff]
  | cons h hs ih =>
    have hdef : containsChars (h :: hs) ns
        = (startsWithChars (h :: hs) ns || containsChars hs ns) := rfl
    rw [hdef, List.infix_cons_iff, Bool.or_eq_true, startsWithChars_iff, ih]

/-- Python's `str.lower` on one character, restricted to ASCII (the only
characters appearing in the heuristic's keywords). -/
def lowerChar (c : Char) : Char :=
  if 65 ≤ c.toNat && c.toNat ≤ 90 then Char.ofNat (c.toNat + 32) else c

/-- Python's `name.lower()` (ASCII model). -/
def pyLower (s : String) : String := String.mk (s.data.map lowerChar)

/-- The keyword list of `inspect_car.py` line 58 (materials). -/
def materialGlassKeywords : List String :=
  ["glass", "window", "windshield", "transparent"]

/-- The keyword list of `inspect_car.py` line 82 (nodes). -/
def nodeGlassKeywords : List String := ["glass", "window", "windshield"]

/-- Line 58 of `inspect_car.py`:
`any(keyword in name.lower() for keyword in [...])` for a material name. -/
def is_glass (name : String) : Bool :=
  materialGlassKeywords.any fun kw => pyContains (pyLower name) kw

/-- Line 82 of `inspect_car.py`: the same test for a node name, without the
`"transparent"` keyword. -/
def node_is_glass (name : String) : Bool :=
  nodeGlassKeywords.any fun kw => pyContains (pyLower name) kw

/-! ## Cockpit position calculator (tools/archive/calculate_cockpit.py) -/

/-- A 3-component vector of (modelled) Python floats. -/
structure Vec3 where
  x : ℚ
  y : ℚ
  z : ℚ
deriving DecidableEq

namespace CalcCockpit

/-- Embeds `min_bounds` (calculate_cockpit.py line 10). -/
def min_bounds : Vec3 := { x := -2.46315, y := -1.04289, z := -3.68455 }

/-- Embeds `max_bounds` (calculate_cockpit.py line 11). -/
def max_bounds : Vec3 := { x := 2.3303, y := 1.04289, z := 0.994301 }

/-- Embeds `width` (line 13). -/
def width : ℚ := max_bounds.x - min_bounds.x

/-- Embeds `height` (line 14). -/
def height : ℚ := max_bounds.y - min_bounds.y

/-- Embeds `depth` (line 15). -/
def depth : ℚ := max_bounds.z - min_bounds.z

/-- Embeds `calculate_position` (calculate_cockpit.py lines 17-22). -/
def calculate_position (x_percent y_percent z_percent : ℚ) : Vec3 :=
  { x := min_bounds.x + width * (x_percent / 100)
    y := min_bounds.y + height * (y_percent / 100)
    z := min_bounds.z + depth * (z_percent / 100) }

end CalcCockpit

/-! ## Model bounds visualizer (tools/archive/visualize_model.py) -/

namespace VisualizeModel

/-- Embeds `min_bounds` (visualize_model.py line 8). -/
def min_bounds : Vec3 := { x := -2.46315, y := -1.04289, z := -3.68455 }

/-- Embeds `max_bounds` (visualize_model.py line 9). -/
def max_bounds : Vec3 := { x := 2.3303, y := 1.04289, z := 0.994301 }

/-- Embeds `width` (line 12). -/
def width : ℚ := max_bounds.x - min_bounds.x

/-- Embeds `height` (line 13). -/
def height : ℚ := max_bounds.y - min_bounds.y

/-- Embeds `depth` (line 14). -/
def depth : ℚ := max_bounds.z - min_bounds.z

/-- Embeds `center_x = (min_bounds[0] + max_bounds[0]) / 2` (line 28). -/
def center_x : ℚ := (min_bounds.x + max_bounds.x) / 2

/-- Embeds `center_y = (min_bounds[1] + min_bounds[1]) / 2` (line 29) — note the
source adds `min_bounds[1]` to itself. -/
def center_y : ℚ := (min_bounds.y + min_bounds.y) / 2

/-- Embeds `center_z = (min_bounds[2] + max_bounds[2]) / 2` (line 30). -/
def center_z : ℚ := (min_bounds.z + max_bounds.z) / 2

/-- The "Front View" suggestion (lines 52-57). -/
def frontView : Vec3 := { x := center_x, y := center_y, z := max_bounds.z + 5 }

/-- The "Side View (Left)" suggestion (lines 58-63). -/
def sideViewLeft : Vec3 :=
  { x := min_bounds.x - 5, y := center_y, z := center_z }

/-- The "Side View (Right)" suggestion (lines 64-69). -/
def sideViewRight : Vec3 :=
  { x := max_bounds.x + 5, y := center_y, z := center_z }

/-- The "Rear View" suggestion (lines 76-81). -/
def rearView : Vec3 := { x := center_x, y := center_y, z := min_bounds.z - 5 }

end VisualizeModel

/-! ## Script-level control flow: exit codes and printed errors -/

/-- One value typed at an interactive prompt: empty input (accept the
bracketed default), a successfully parsed number, or text that makes
`float(...)`/`int(...)` raise `ValueError`. -/
inductive Entry (α : Type) where
  | blank
  | num (v : α)
  | bad
deriving DecidableEq

/-- One interaction at an `input(...)` call: the user either submits a line
or interrupts with Ctrl-C. -/
inductive Ev (α : Type) where
  | entry (e : Entry α)
  | interrupt
deriving DecidableEq

/-- Outcome of one Python read-and-parse step inside a `try` block. -/
inductive PyRead (α : Type) where
  | val (a : α)
  | valueError
  | keyboardInterrupt
deriving DecidableEq

/-- Models `x = float(input(...).strip()) if x_input else default` — or the `int`
version — together with the exceptions it can raise. -/
def readNum {α : Type} (dflt : α) : Ev α → PyRead α
  | .interrupt => .keyboardInterrupt
  | .entry .blank => .val dflt
  | .entry (.num v) => .val v
  | .entry .bad => .valueError

/-- Process exit code of `tools/archive/calculate_cockpit.py`: the module
body reads three floats inside `try`, `except ValueError` exits 1,
`except KeyboardInterrupt` exits 0, and normal completion exits 0. -/
def cockpit_exit (e1 e2 e3 : Ev ℚ) : Nat :=
  match readNum 35 e1 with
  | .valueError => 1
  | .keyboardInterrupt => 0
  | .val _ =>
    match readNum 55 e2 with
    | .valueError => 1
    | .keyboardInterrupt => 0
    | .val _ =>
      match readNum 60 e3 with
      | .valueError => 1
      | .keyboardInterrupt => 0
      | .val _ => 0

/-- Embeds `rgb_to_glsl` (skybox_colors.py lines 9-11). -/
def rgb_to_glsl (r g b : Int) : ℚ × ℚ × ℚ :=
  ((r : ℚ) / 255, (g : ℚ) / 255, (b : ℚ) / 255)

/-- Result of the custom-color section of `skybox_colors.py` (lines
88-99): either the GLSL conversion of the three integers read (no range
check), or the `"Using defaults..."` branch of
`except (ValueError, KeyboardInterrupt)`. -/
inductive SkyboxOutcome where
  | emitted (r g b : Int) (glr glg glb : ℚ)
  | usedDefaults
deriving DecidableEq

/-- The custom-color section of `skybox_colors.py` (lines 88-99). -/
def skybox_custom (e1 e2 e3 : Ev Int) : SkyboxOutcome :=
  match readNum 135 e1 with
  | .val r =>
    match readNum 206 e2 with
    | .val g =>
      match readNum 235 e3 with
      | .val b =>
        .emitted r g b (rgb_to_glsl r g b).1 (rgb_to_glsl r g b).2.1
          (rgb_to_glsl r g b).2.2
      | _ => .usedDefaults
    | _ => .usedDefaults
  | _ => .usedDefaults

/-- Process exit code of `skybox_colors.py`: both error branches are
swallowed by the final `except` and the module runs to completion, so the
process always exits 0. -/
def skybox_exit (_e1 _e2 _e3 : Ev Int) : Nat := 0

/-- How a run of `GLTFConverter.convert_file` ends, as observed by the
`try` in `main` (converter.py lines 460-472). -/
inductive ConvertOutcome where
  | success
  | fileNotFound (path : String)
  | otherError (msg : String)
deriving DecidableEq

/-- Exit code of the converter's `main` (converter.py lines 436-472):
usage error when fewer than 2 argv entries, otherwise 0 on success and 1
on `FileNotFoundError` or any other exception. -/
def converter_main_exit (argc : Nat) (oc : ConvertOutcome) : Nat :=
  if argc < 2 then 1
  else
    match oc with
    | .success => 0
    | .fileNotFound _ => 1
    | .otherError _ => 1

/-- The error line printed by the converter's `main` on failure
(converter.py lines 465-469). -/
def converter_error_msg : ConvertOutcome → Option String
  | .success => none
  | .fileNotFound p => some ("Error: Input file not found: " ++ p)
  | .otherError m => some ("Error during conversion: " ++ m)

/-- What a finished script run looks like from the shell: the lines it
printed and the process exit code. -/
structure ScriptRun where
  printed : List String
  exitCode : Nat
deriving DecidableEq

/-- Models `load_and_render_gltf` of `src/tools/main.py` (lines 43-47) invoked on
a path that does not exist: it prints the two lines below and `return`s;
`main` then falls off the end, so the process exits 0. -/
def viewer_missing_file_run (path : String) : ScriptRun :=
  { printed :=
      ["Loading GLTF file: " ++ path, "Error: File not found at " ++ path]
    exitCode := 0 }

/-- Models `inspect_car_model` of `src/tools/inspect_car.py` (lines 22-31) when
neither JSON report nor the gltf file exists: it prints three diagnostics
and `return`s; the process exits 0. -/
def inspect_car_missing_run : ScriptRun :=
  { printed :=
      ["ERROR: No JSON file found for BMW model",
       "Checking gltf file directly...", "No gltf file found either"]
    exitCode := 0 }

/-! ## Helper lemmas about mesh extraction -/

theorem attrRefOut_isSome (accessors : List Accessor) (r : Option Nat) :
    (attrRefOut accessors r).isSome = refOk accessors.length r := by
  cases r with
  | none => rfl
  | some v =>
    cases h : accessors[v]? with
    | none =>
      have hle : accessors.length ≤ v := List.getElem?_eq_none_iff.mp h
      simp [attrRefOut, List.get?_eq_getElem?, refOk, h, Nat.not_lt.mpr hle]
    | some a =>
      have hlt : v < accessors.length := by
        by_contra hc
        rw [List.getElem?_eq_none (Nat.not_lt.mp hc)] at h
        exact Option.noConfusion h
      simp [attrRefOut, List.get?_eq_getElem?, refOk, h, hlt]

theorem primOut_isSome (accessors : List Accessor) (idx : Nat) (p : Primitive) :
    (primOut accessors idx p).isSome = primRefsOk accessors.length p := by
  have h1 := attrRefOut_isSome accessors p.attributes.POSITION
  have h2 := attrRefOut_isSome accessors p.attributes.NORMAL
  have h3 := attrRefOut_isSome accessors p.attributes.TEXCOORD_0
  have h4 := attrRefOut_isSome accessors p.attributes.COLOR_0
  have h5 := attrRefOut_isSome accessors p.indices
  unfold primOut primRefsOk
  cases hc1 : attrRefOut accessors p.attributes.POSITION <;>
    cases hc2 : attrRefOut accessors p.attributes.NORMAL <;>
      cases hc3 : attrRefOut accessors p.attributes.TEXCOORD_0 <;>
        cases hc4 : attrRefOut accessors p.attributes.COLOR_0 <;>
          cases hc5 : attrRefOut accessors p.indices <;>
            rw [hc1] at h1 <;> rw [hc2] at h2 <;> rw [hc3] at h3 <;>
              rw [hc4] at h4 <;> rw [hc5] at h5 <;>
                simp [← h1, ← h2, ← h3, ← h4, ← h5]

theorem primOut_index (accessors : List Accessor) (idx : Nat) (p : Primitive)
    (po : PrimOut) (h : primOut accessors idx p = some po) : po.index = idx := by
  unfold primOut at h
  split at h
  · cases h
    rfl
  · exact Option.noConfusion h

theorem primsOut_isSome (accessors : List Accessor) (ps : List Primitive) :
    ∀ k, (primsOut accessors k ps).isSome
      = ps.all (primRefsOk accessors.length) := by
  induction ps with
  | nil => intro k; rfl
  | cons p ps ih =>
    intro k
    have hp := primOut_isSome accessors k p
    have hs := ih (k + 1)
    unfold primsOut
    cases hc1 : primOut accessors k p <;>
      cases hc2 : primsOut accessors (k + 1) ps <;>
        rw [hc1] at hp <;> rw [hc2] at hs <;> simp [List.all_cons, ← hp, ← hs]

theorem primsOut_map_index (accessors : List Accessor) (ps : List Primitive) :
    ∀ k os, primsOut accessors k ps = some os →
      os.map PrimOut.index = List.range' k ps.length := by
  induction ps with
  | nil =>
    intro k os h
    cases h
    rfl
  | cons p ps ih =>
    intro k os h
    unfold primsOut at h
    cases hc1 : primOut accessors k p with
    | none => rw [hc1] at h; exact Option.noConfusion h
    | some o =>
      cases hc2 : primsOut accessors (k + 1) ps with
      | none => rw [hc1, hc2] at h; exact Option.noConfusion h
      | some os' =>
        rw [hc1, hc2] at h
        cases h
        simp [List.range'_succ, primOut_index accessors k p o hc1,
          ih (k + 1) os' hc2]

theorem meshOut_isSome (accessors : List Accessor) (idx : Nat) (m : Mesh) :
    (meshOut accessors idx m).isSome = meshRefsOk accessors.length m := by
  simp [meshOut, meshRefsOk, primsOut_isSome]

theorem meshOut_index (accessors : List Accessor) (idx : Nat) (m : Mesh)
    (mo : MeshOut) (h : meshOut accessors idx m = some mo) : mo.index = idx := by
  rcases Option.map_eq_some'.mp h with ⟨ps, _, hmo⟩
  rw [← hmo]

theorem meshesOut_isSome (accessors : List Accessor) (ms : List Mesh) :
    ∀ k, (meshesOut accessors k ms).isSome
      = ms.all (meshRefsOk accessors.length) := by
  induction ms with
  | nil => intro k; rfl
  | cons m ms ih =>
    intro k
    have hm := meshOut_isSome accessors k m
    have hs := ih (k + 1)
    unfold meshesOut
    cases hc1 : meshOut accessors k m <;>
      cases hc2 : meshesOut accessors (k + 1) ms <;>
        rw [hc1] at hm <;> rw [hc2] at hs <;> simp [List.all_cons, ← hm, ← hs]

theorem meshesOut_map_index (accessors : List Accessor) (ms : List Mesh) :
    ∀ k os, meshesOut accessors k ms = some os →
      os.map MeshOut.index = List.range' k ms.length := by
  induction ms with
  | nil =>
    intro k os h
    cases h
    rfl
  | cons m ms ih =>
    intro k os h
    unfold meshesOut at h
    cases hc1 : meshOut accessors k m with
    | none => rw [hc1] at h; exact Option.noConfusion h
    | some o =>
      cases hc2 : meshesOut accessors (k + 1) ms with
      | none => rw [hc1, hc2] at h; exact Option.noConfusion h
      | some os' =>
        rw [hc1, hc2] at h
        cases h
        simp [List.range'_succ, meshOut_index accessors k m o hc1,
          ih (k + 1) os' hc2]

/-- C9: `extract_meshes` succeeds exactly on documents whose primitive
attribute references (POSITION, NORMAL, TEXCOORD_0, COLOR_0) and indices
references all index into the accessors list; on any other document the
unguarded accessor lookup raises (modelled by `none`), which the converter's
`main` turns into exit code 1; under the precondition the error branch is
unreachable. -/
theorem C9_mesh_extraction_totality :
    (∀ g : GLTF, (extract_meshes g).isSome = true ↔ gltfRefsOk g = true) ∧
    (∀ g : GLTF, (convert_to_json g).isSome = true ↔ gltfRefsOk g = true) ∧
    (∀ m : String, converter_main_exit 2 (.otherError m) = 1) := by
  refine ⟨fun g => ?_, fun g => ?_, fun m => rfl⟩
  · rw [extract_meshes, meshesOut_isSome, gltfRefsOk]
  · rw [convert_to_json, Option.isSome_map', extract_meshes, meshesOut_isSome,
      gltfRefsOk]

/-- C3: the inspector's glass-keyword heuristic is true iff the lowercased
name contains one of the literal substrings "glass", "window",
"windshield", "transparent"; the node-name check omits "transparent", so a
node named "TransparentRoof" is not flagged while a material with that name
is. -/
theorem C3_glass_keyword_heuristic :
    (∀ name : String,
      is_glass name = true ↔
        ("glass".data <:+: (pyLower name).data ∨
          "window".data <:+: (pyLower name).data ∨
          "windshield".data <:+: (pyLower name).data ∨
          "transparent".data <:+: (pyLower name).data)) ∧
    (∀ name : String,
      node_is_glass name = true ↔
        ("glass".data <:+: (pyLower name).data ∨
          "window".data <:+: (pyLower name).data ∨
          "windshield".data <:+: (pyLower name).data)) ∧
    node_is_glass "TransparentRoof" = false ∧
    is_glass "TransparentRoof" = true := by
  refine ⟨fun name => ?_, fun name => ?_, by decide, by decide⟩
  · simp [is_glass, materialGlassKeywords, pyContains, containsChars_iff]
  · simp [node_is_glass, nodeGlassKeywords, pyContains, containsChars_iff]

/-! ## Claim C1: field mapping of the converter -/

/-- A document containing a node whose `name` is present but empty and an
accessor whose `byteOffset` is present but zero. -/
def gC1 : GLTF :=
  { nodes := [{ name := some "" }]
    accessors :=
      [{ componentType := 5126, count := 3, type := "VEC3"
         byteOffset := some 0 }] }

/-- C1 counterexample: the claim demands that falsy-but-present source
fields survive, but the converter's truthiness guards drop them: the node's
present empty-string `name` and the accessor's present zero `byteOffset`
are both omitted (`none`) in the output. -/
theorem C1_counterexample :
    gC1.nodes.get? 0 = some { name := some "" } ∧
    (extract_nodes gC1).get? 0 =
      some { index := 0, name := none, mesh := none, camera := none
             skin := none, children := none, matrix := none
             translation := none, rotation := none, scale := none } ∧
    gC1.accessors.get? 0 =
      some { componentType := 5126, count := 3, type := "VEC3"
             byteOffset := some 0 } ∧
    (extract_accessors gC1).get? 0 =
      some { index := 0, componentType := 5126, count := 3, type := "VEC3"
             bufferView := none, byteOffset := none, normalized := none
             min := none, max := none, name := none } ∧
    (none : Option String) ≠ some "" ∧
    (none : Option Int) ≠ some 0 := by
  refine ⟨rfl, rfl, rfl, rfl, by simp, by simp⟩

/-- C1 amended: a present source field of a node, material, accessor, or
mesh is copied to the output under the same key exactly when it passes the
converter's guard — Python truthiness for string/list/integer-guarded
fields (so an empty-string name, a zero byteOffset, or an empty list are
dropped even when present, while an all-zero translation, a non-empty
list, is kept), and mere presence for `is not None`-guarded fields; absent
fields are always omitted; a mesh's `primitives` are emitted in
restructured form, not as the source value. -/
theorem C1_amended_field_mapping :
    -- meshes: name and weights (primitives are restructured, cf. C2/C7)
    (∀ (acc : List Accessor) (i : Nat) (m : Mesh) (mo : MeshOut),
      meshOut acc i m = some mo →
        ((∀ s, mo.name = some s ↔ m.name = some s ∧ s ≠ "") ∧
          (∀ l, mo.weights = some l ↔ m.weights = some l ∧ l ≠ []))) ∧
    -- nodes
    (∀ i n s, (nodeOut i n).name = some s ↔ n.name = some s ∧ s ≠ "") ∧
    (∀ i n, (nodeOut i n).mesh = n.mesh) ∧
    (∀ i n, (nodeOut i n).camera = n.camera) ∧
    (∀ i n, (nodeOut i n).skin = n.skin) ∧
    (∀ i n l, (nodeOut i n).children = some l ↔ n.children = some l ∧ l ≠ []) ∧
    (∀ i n l, (nodeOut i n).matrix = some l ↔ n.matrix = some l ∧ l ≠ []) ∧
    (∀ i n l,
      (nodeOut i n).translation = some l ↔ n.translation = some l ∧ l ≠ []) ∧
    (∀ i n l, (nodeOut i n).rotation = some l ↔ n.rotation = some l ∧ l ≠ []) ∧
    (∀ i n l, (nodeOut i n).scale = some l ↔ n.scale = some l ∧ l ≠ []) ∧
    (∀ g i, (extract_nodes g).get? i = (g.nodes.get? i).map fun n => nodeOut i n) ∧
    -- materials
    (∀ i m s, (materialOut i m).name = some s ↔ m.name = some s ∧ s ≠ "") ∧
    (∀ i m, ((materialOut i m).pbrMetallicRoughness).isSome
      = (m.pbrMetallicRoughness).isSome) ∧
    (∀ p, (pbrOut p).metallicFactor = p.metallicFactor) ∧
    (∀ p, (pbrOut p).roughnessFactor = p.roughnessFactor) ∧
    (∀ p l, (pbrOut p).baseColorFactor = some l ↔
      p.baseColorFactor = some l ∧ l ≠ []) ∧
    (∀ p, ((pbrOut p).baseColorTexture).isSome = (p.baseColorTexture).isSome) ∧
    (∀ p, ((pbrOut p).metallicRoughnessTexture).isSome
      = (p.metallicRoughnessTexture).isSome) ∧
    (∀ t : TextureRef, (texRefOut t).index = t.index) ∧
    (∀ i m, ((materialOut i m).normalTexture).isSome = (m.normalTexture).isSome) ∧
    (∀ i m l, (materialOut i m).emissiveFactor = some l ↔
      m.emissiveFactor = some l ∧ l ≠ []) ∧
    (∀ i m, ((materialOut i m).emissiveTexture).isSome
      = (m.emissiveTexture).isSome) ∧
    (∀ i m s, (materialOut i m).alphaMode = some s ↔ m.alphaMode = some s ∧ s ≠ "") ∧
    (∀ i m, (materialOut i m).alphaCutoff = m.alphaCutoff) ∧
    (∀ i m, (materialOut i m).doubleSided = m.doubleSided) ∧
    (∀ g i, (extract_materials g).get? i
      = (g.materials.get? i).map fun m => materialOut i m) ∧
    -- accessors
    (∀ i a, (accessorOut i a).componentType = a.componentType) ∧
    (∀ i a, (accessorOut i a).count = a.count) ∧
    (∀ i a, (accessorOut i a).type = a.type) ∧
    (∀ i a, (accessorOut i a).bufferView = a.bufferView) ∧
    (∀ i a v, (accessorOut i a).byteOffset = some v ↔
      a.byteOffset = some v ∧ v ≠ 0) ∧
    (∀ i a, (accessorOut i a).normalized = a.normalized) ∧
    (∀ i a l, (accessorOut i a).min = some l ↔ a.min = some l ∧ l ≠ []) ∧
    (∀ i a l, (accessorOut i a).max = some l ↔ a.max = some l ∧ l ≠ []) ∧
    (∀ i a s, (accessorOut i a).name = some s ↔ a.name = some s ∧ s ≠ "") ∧
    (∀ g i, (extract_accessors g).get? i
      = (g.accessors.get? i).map fun a => accessorOut i a) := by
  refine ⟨?_, ?_, ?_, ?_, ?_, ?_, ?_, ?_, ?_, ?_, ?_, ?_, ?_, ?_, ?_, ?_, ?_,
    ?_, ?_, ?_, ?_, ?_, ?_, ?_, ?_, ?_, ?_, ?_, ?_, ?_, ?_, ?_, ?_, ?_, ?_, ?_⟩
  · intro acc i m mo h
    rcases Option.map_eq_some'.mp h with ⟨ps, _, hmo⟩
    rw [← hmo]
    exact ⟨fun s => truthyStr_eq_some, fun l => truthyList_eq_some⟩
  · intro i n s; exact truthyStr_eq_some
  · intro i n; rfl
  · intro i n; rfl
  · intro i n; rfl
  · intro i n l; exact truthyList_eq_some
  · intro i n l; exact truthyList_eq_some
  · intro i n l; exact truthyList_eq_some
  · intro i n l; exact truthyList_eq_some
  · intro i n l; exact truthyList_eq_some
  · intro g i
    rw [extract_nodes, enumMap_get?]
    simp
  · intro i m s; exact truthyStr_eq_some
  · intro i m; simp [materialOut]
  · intro p; rfl
  · intro p; rfl
  · intro p l; exact truthyList_eq_some
  · intro p; simp [pbrOut]
  · intro p; simp [pbrOut]
  · intro t; rfl
  · intro i m; simp [materialOut]
  · intro i m l; exact truthyList_eq_some
  · intro i m; simp [materialOut]
  · intro i m s; exact truthyStr_eq_some
  · intro i m; rfl
  · intro i m; rfl
  · intro g i
    rw [extract_materials, enumMap_get?]
    simp
  · intro i a; rfl
  · intro i a; rfl
  · intro i a; rfl
  · intro i a; rfl
  · intro i a v; exact truthyInt_eq_some
  · intro i a; rfl
  · intro i a l; exact truthyList_eq_some
  · intro i a l; exact truthyList_eq_some
  · intro i a s; exact truthyStr_eq_some
  · intro g i
    rw [extract_accessors, enumMap_get?]
    simp

/-- Witness for C1 amended at a concrete mesh. -/
theorem C1_amended_witness :
    ({ index := 0, primitives := [], name := some "body", weights := none }
        : MeshOut).name = some "body" := by
  have h := C1_amended_field_mapping.1 [] 0
    { name := some "body", primitives := [], weights := none }
    { index := 0, primitives := [], name := some "body", weights := none }
    rfl
  exact (h.1 "body").mpr ⟨rfl, by simp⟩

/-! ## Claim C2: round-trip of emitted fields -/

/-- A document with one material whose `baseColorTexture` has no
`texCoord` in the source. -/
def gC2 : GLTF :=
  { materials :=
      [{ pbrMetallicRoughness :=
          some { baseColorTexture := some { index := 0 } } }] }

/-- C2 counterexample: the claim allows only primitive `mode` to be
defaulted, but the converter also emits `texCoord: 0` for a texture
reference whose source omits `texCoord`. -/
theorem C2_counterexample :
    (gC2.materials.get? 0).map
        (fun m => m.pbrMetallicRoughness.map fun p => p.baseColorTexture)
      = some (some (some { index := 0, texCoord := none })) ∧
    (extract_materials gC2).get? 0 =
      some { index := 0, name := none
             pbrMetallicRoughness :=
               some { baseColorFactor := none, metallicFactor := none
                      roughnessFactor := none
                      baseColorTexture := some { index := 0, texCoord := 0 }
                      metallicRoughnessTexture := none }
             normalTexture := none, emissiveFactor := none
             emissiveTexture := none, alphaMode := none, alphaCutoff := none
             doubleSided := none } := ⟨rfl, rfl⟩

/-- C2 amended: re-reading the emitted fields reproduces the populated
(truthy) subset of the source, except for the added defaults: a
primitive's `mode` defaults to 4, every emitted texture reference's
`texCoord` defaults to 0, a normal texture's `scale` defaults to 1.0, and
a scene's `nodes` key is always emitted, defaulting to `[]`. -/
theorem C2_amended_roundtrip :
    -- primitive mode
    (∀ (acc : List Accessor) (i : Nat) (p : Primitive) (po : PrimOut),
      primOut acc i p = some po →
        ((∀ k, p.mode = some k → po.mode = k) ∧
          (p.mode = none → po.mode = 4) ∧
          po.material = p.material)) ∧
    -- plain texture references
    (∀ (t : TextureRef) (k : Nat), t.texCoord = some k →
      (texRefOut t).texCoord = k) ∧
    (∀ t : TextureRef, t.texCoord = none → (texRefOut t).texCoord = 0) ∧
    -- normal texture references
    (∀ (t : NormalTextureRef) (k : Nat), t.texCoord = some k →
      (normalTexOut t).texCoord = k) ∧
    (∀ t : NormalTextureRef, t.texCoord = none → (normalTexOut t).texCoord = 0) ∧
    (∀ (t : NormalTextureRef) (q : ℚ), t.scale = some q →
      (normalTexOut t).scale = q) ∧
    (∀ t : NormalTextureRef, t.scale = none → (normalTexOut t).scale = 1) ∧
    -- scenes
    (∀ (i : Nat) (s : Scene) (l : List Nat), s.nodes = some l → l ≠ [] →
      (sceneOut i s).nodes = l) ∧
    (∀ (i : Nat) (s : Scene), s.nodes = none → (sceneOut i s).nodes = []) ∧
    (∀ (i : Nat) (s : Scene) (nm : String),
      (sceneOut i s).name = some nm ↔ s.name = some nm ∧ nm ≠ "") ∧
    (∀ g i, (extract_scenes g).get? i
      = (g.scenes.get? i).map fun s => sceneOut i s) := by
  refine ⟨?_, ?_, ?_, ?_, ?_, ?_, ?_, ?_, ?_, ?_, ?_⟩
  · intro acc i p po h
    have hidx := primOut_index acc i p po h
    unfold primOut at h
    split at h
    · cases h
      refine ⟨fun k hk => by simp [hk], fun hk => by simp [hk], rfl⟩
    · exact Option.noConfusion h
  · intro t k hk; simp [texRefOut, hk]
  · intro t hk; simp [texRefOut, hk]
  · intro t k hk; simp [normalTexOut, hk]
  · intro t hk; simp [normalTexOut, hk]
  · intro t q hq; simp [normalTexOut, hq]
  · intro t hq; simp [normalTexOut, hq]
  · intro i s l hl hne
    cases l with
    | nil => exact absurd rfl hne
    | cons a l => simp [sceneOut, hl, truthyList]
  · intro i s hl; simp [sceneOut, hl, truthyList]
  · intro i s nm; exact truthyStr_eq_some
  · intro g i
    rw [extract_scenes, enumMap_get?]
    simp

/-- Witness for C2 amended at a concrete primitive without `mode`. -/
theorem C2_amended_witness :
    ({ index := 0, mode := 4
       attributes :=
         { POSITION := none, NORMAL := none, TEXCOORD_0 := none
           COLOR_0 := none }
       material := none, indices := none } : PrimOut).mode = 4 := by
  have h := C2_amended_roundtrip.1 [] 0 {}
    { index := 0, mode := 4
      attributes :=
        { POSITION := none, NORMAL := none, TEXCOORD_0 := none
          COLOR_0 := none }
      material := none, indices := none } rfl
  exact h.2.1 rfl

/-! ## Claim C7: index fields and normalization rules -/

/-- A document with one material whose `normalTexture` omits `scale` in
the source. -/
def gC7 : GLTF :=
  { materials :=
      [{ normalTexture := some { index := 2, texCoord := some 1 } }] }

/-- C7 counterexample: omission-on-absence is not the only normalization
rule — the converter also injects `scale: 1.0` into an emitted
`normalTexture` whose source has no `scale` (and `index`/`texCoord`
defaults besides). -/
theorem C7_counterexample :
    (gC7.materials.get? 0).map Material.normalTexture
      = some (some { index := 2, texCoord := some 1, scale := none }) ∧
    (extract_materials gC7).get? 0 =
      some { index := 0, name := none, pbrMetallicRoughness := none
             normalTexture := some { index := 2, texCoord := 1, scale := 1 }
             emissiveFactor := none, emissiveTexture := none
             alphaMode := none, alphaCutoff := none
             doubleSided := none } := ⟨rfl, rfl⟩

/-- C7 amended: every element of every emitted collection carries an
`index` field equal to its position (primitives likewise, within their
mesh), and normalization comprises omission of absent-or-falsy fields plus
the fixed defaults: primitive `mode` 4, texture-reference `texCoord` 0,
normal-texture `scale` 1.0, and the always-emitted scene `nodes` list. -/
theorem C7_amended_index_fields :
    (∀ (g : GLTF) (ms : List MeshOut), extract_meshes g = some ms →
      ms.map MeshOut.index = List.range' 0 g.meshes.length) ∧
    (∀ (acc : List Accessor) (ps : List Primitive) (k : Nat) (os : List PrimOut),
      primsOut acc k ps = some os →
        os.map PrimOut.index = List.range' k ps.length) ∧
    (∀ g : GLTF, (extract_scenes g).map SceneOut.index
      = List.range' 0 g.scenes.length) ∧
    (∀ g : GLTF, (extract_nodes g).map NodeOut.index
      = List.range' 0 g.nodes.length) ∧
    (∀ g : GLTF, (extract_materials g).map MaterialOut.index
      = List.range' 0 g.materials.length) ∧
    (∀ g : GLTF, (extract_textures g).map TextureOut.index
      = List.range' 0 g.textures.length) ∧
    (∀ g : GLTF, (extract_images g).map ImageOut.index
      = List.range' 0 g.images.length) ∧
    (∀ g : GLTF, (extract_buffers g).map BufferOut.index
      = List.range' 0 g.buffers.length) ∧
    (∀ g : GLTF, (extract_accessors g).map AccessorOut.index
      = List.range' 0 g.accessors.length) ∧
    (∀ t : TextureRef, t.texCoord = none → (texRefOut t).texCoord = 0) ∧
    (∀ t : NormalTextureRef, t.scale = none → (normalTexOut t).scale = 1) ∧
    (∀ (acc : List Accessor) (i : Nat) (p : Primitive) (po : PrimOut),
      primOut acc i p = some po → p.mode = none → po.mode = 4) ∧
    (∀ (i : Nat) (s : Scene), s.nodes = none → (sceneOut i s).nodes = []) := by
  refine ⟨?_, ?_, ?_, ?_, ?_, ?_, ?_, ?_, ?_, ?_, ?_, ?_, ?_⟩
  · intro g ms h
    exact meshesOut_map_index g.accessors g.meshes 0 ms h
  · intro acc ps k os h
    exact primsOut_map_index acc ps k os h
  · exact fun g => enumMap_map_proj sceneOut SceneOut.index (fun i a => rfl) g.scenes 0
  · exact fun g => enumMap_map_proj nodeOut NodeOut.index (fun i a => rfl) g.nodes 0
  · exact fun g =>
      enumMap_map_proj materialOut MaterialOut.index (fun i a => rfl) g.materials 0
  · exact fun g =>
      enumMap_map_proj textureOut TextureOut.index (fun i a => rfl) g.textures 0
  · exact fun g => enumMap_map_proj imageOut ImageOut.index (fun i a => rfl) g.images 0
  · exact fun g => enumMap_map_proj bufferOut BufferOut.index (fun i a => rfl) g.buffers 0
  · exact fun g =>
      enumMap_map_proj accessorOut AccessorOut.index (fun i a => rfl) g.accessors 0
  · intro t hk; simp [texRefOut, hk]
  · intro t hq; simp [normalTexOut, hq]
  · intro acc i p po h hm
    have hidx := primOut_index acc i p po h
    unfold primOut at h
    split at h
    · cases h
      simp [hm]
    · exact Option.noConfusion h
  · intro i s hl; simp [sceneOut, hl, truthyList]

/-- Witness document for C7: two meshes with no primitives. -/
def gC7w : GLTF := { meshes := [{}, {}] }

/-- The converter's output for `gC7w`. -/
def meshOutsC7w : List MeshOut :=
  [{ index := 0, primitives := [], name := none, weights := none },
   { index := 1, primitives := [], name := none, weights := none }]

/-- Witness for C7 amended at the concrete document `gC7w`. -/
theorem C7_amended_witness :
    meshOutsC7w.map MeshOut.index = List.range' 0 2 := by
  have h := C7_amended_index_fields.1 gC7w meshOutsC7w rfl
  simpa [gC7w] using h

/-! ## Claims C4 and C5: exit codes and error messages -/

/-- The prompt event is a line that parses (a number or an accepted
default). -/
def evVal {α : Type} : Ev α → Bool
  | .entry .blank => true
  | .entry (.num _) => true
  | _ => false

/-- The prompt event is a line that makes the numeric parse raise
`ValueError`. -/
def evBad {α : Type} : Ev α → Bool
  | .entry .bad => true
  | _ => false

/-- C4 counterexample: the viewer wrapper is a script, and on
file-not-found its process exits 0, not 1 as the claim requires. -/
theorem C4_counterexample :
    (viewer_missing_file_run "models/bmw.gltf").exitCode = 0 ∧
    (viewer_missing_file_run "models/bmw.gltf").exitCode ≠ 1 :=
  ⟨rfl, by simp [viewer_missing_file_run]⟩

/-- C4 amended: the converter exits 0 on success and 1 on
`FileNotFoundError` or any other conversion error; the cockpit calculator
exits 0 on keyboard interrupt (and on success) and 1 on malformed input;
the skybox generator always exits 0; but the viewer wrapper and the car
inspector exit 0 even when the input file is not found. -/
theorem C4_exit_codes :
    converter_main_exit 2 .success = 0 ∧
    (∀ p, converter_main_exit 2 (.fileNotFound p) = 1) ∧
    (∀ m, converter_main_exit 2 (.otherError m) = 1) ∧
    (∀ e1 e2 e3 : Ev ℚ,
      cockpit_exit e1 e2 e3 =
        if evBad e1 then 1
        else if e1 = .interrupt then 0
        else if evBad e2 then 1
        else if e2 = .interrupt then 0
        else if evBad e3 then 1
        else 0) ∧
    (∀ e1 e2 e3 : Ev Int, skybox_exit e1 e2 e3 = 0) ∧
    (∀ p, (viewer_missing_file_run p).exitCode = 0) ∧
    inspect_car_missing_run.exitCode = 0 := by
  refine ⟨rfl, fun p => rfl, fun m => rfl, ?_, fun e1 e2 e3 => rfl,
    fun p => rfl, rfl⟩
  intro e1 e2 e3
  rcases e1 with e | _ <;> try rcases e with _ | v | _
  all_goals
    rcases e2 with e | _ <;> try rcases e with _ | w | _
  all_goals first
    | rfl
    | (rcases e3 with e | _ <;> try rcases e with _ | u | _
       all_goals rfl)

/-- C5 counterexample: the viewer wrapper takes an input path on the
command line, prints an error naming a nonexistent path, but exits 0, not
1. -/
theorem C5_counterexample :
    (viewer_missing_file_run "missing.gltf").exitCode = 0 ∧
    (viewer_missing_file_run "missing.gltf").exitCode ≠ 1 ∧
    ("Error: File not found at " ++ "missing.gltf")
      ∈ (viewer_missing_file_run "missing.gltf").printed ∧
    "missing.gltf".data <:+: ("Error: File not found at " ++ "missing.gltf").data :=
  ⟨rfl, by simp [viewer_missing_file_run], by simp [viewer_missing_file_run],
    ⟨"Error: File not found at ".data, [], by simp⟩⟩

/-- C5 amended: on a nonexistent input path the converter exits 1 and
prints an error naming the path; the viewer wrapper prints an error naming
the path but exits 0. -/
theorem C5_missing_path_behaviour :
    (∀ p, converter_main_exit 2 (.fileNotFound p) = 1) ∧
    (∀ p, ∃ m, converter_error_msg (.fileNotFound p) = some m ∧
      p.data <:+: m.data) ∧
    (∀ p, (viewer_missing_file_run p).exitCode = 0) ∧
    (∀ p, ∃ m, m ∈ (viewer_missing_file_run p).printed ∧
      p.data <:+: m.data) := by
  refine ⟨fun p => rfl, fun p => ?_, fun p => rfl, fun p => ?_⟩
  · exact ⟨"Error: Input file not found: " ++ p, rfl,
      ⟨"Error: Input file not found: ".data, [], by simp⟩⟩
  · exact ⟨"Error: File not found at " ++ p,
      by simp [viewer_missing_file_run],
      ⟨"Error: File not found at ".data, [], by simp⟩⟩

/-! ## Claim C6: cockpit position formula -/

/-- C6 counterexample: at x percent 35 the code computes exactly
`min + width * 0.35 = -0.7854425`, which is not approximately `-0.79645`
(the difference exceeds 1/100, far beyond the five decimals the claim
gives). -/
theorem C6_counterexample :
    (CalcCockpit.calculate_position 35 55 60).x = -0.7854425 ∧
    ((-0.7854425 : ℚ) ≠ -0.79645) ∧
    |(CalcCockpit.calculate_position 35 55 60).x - -0.79645| > 1 / 100 := by
  have hx : (CalcCockpit.calculate_position 35 55 60).x = -0.7854425 := by
    norm_num [CalcCockpit.calculate_position, CalcCockpit.min_bounds,
      CalcCockpit.max_bounds, CalcCockpit.width]
  refine ⟨hx, by norm_num, ?_⟩
  rw [hx]
  rw [show |(-0.7854425 : ℚ) - -0.79645| = 0.0110075 by norm_num]
  norm_num

/-- C6 amended: each coordinate is computed by
`value = min + (max - min) * percent / 100`; for the hard-coded bounds
(width 4.79345) and x percent 35 the returned x coordinate is exactly
`min + width * 0.35 = -0.7854425`, approximately `-0.78544`. -/
theorem C6_cockpit_formula :
    (∀ xp yp zp : ℚ,
      CalcCockpit.calculate_position xp yp zp =
        { x := CalcCockpit.min_bounds.x +
            (CalcCockpit.max_bounds.x - CalcCockpit.min_bounds.x) * (xp / 100)
          y := CalcCockpit.min_bounds.y +
            (CalcCockpit.max_bounds.y - CalcCockpit.min_bounds.y) * (yp / 100)
          z := CalcCockpit.min_bounds.z +
            (CalcCockpit.max_bounds.z - CalcCockpit.min_bounds.z) * (zp / 100) }) ∧
    CalcCockpit.width = 4.79345 ∧
    (CalcCockpit.calculate_position 35 55 60).x
      = CalcCockpit.min_bounds.x + CalcCockpit.width * (35 / 100) ∧
    (CalcCockpit.calculate_position 35 55 60).x = -0.7854425 ∧
    |(CalcCockpit.calculate_position 35 55 60).x - -0.78544| < 1 / 100000 := by
  refine ⟨fun xp yp zp => rfl, ?_, rfl, ?_, ?_⟩
  · norm_num [CalcCockpit.width, CalcCockpit.min_bounds, CalcCockpit.max_bounds]
  · norm_num [CalcCockpit.calculate_position, CalcCockpit.min_bounds,
      CalcCockpit.max_bounds, CalcCockpit.width]
  · have hx : (CalcCockpit.calculate_position 35 55 60).x = -0.7854425 := by
      norm_num [CalcCockpit.calculate_position, CalcCockpit.min_bounds,
        CalcCockpit.max_bounds, CalcCockpit.width]
    rw [hx]
    rw [show |(-0.7854425 : ℚ) - -0.78544| = 0.0000025 by norm_num]
    norm_num

/-! ## Claim C8: interactive input validation -/

/-- C8 counterexample: the skybox generator's prompt accepts the
out-of-range RGB component 300 without any report or default and emits its
conversion `300/255`. -/
theorem C8_counterexample :
    skybox_custom (.entry (.num 300)) (.entry (.num 206)) (.entry (.num 235))
      = .emitted 300 206 235 (300 / 255) (206 / 255) (235 / 255) ∧
    ¬((300 : Int) ≤ 255) ∧
    (SkyboxOutcome.emitted 300 206 235 (300 / 255) (206 / 255) (235 / 255)
      ≠ .usedDefaults) := by
  refine ⟨?_, by norm_num, by simp⟩
  simp [skybox_custom, readNum, rgb_to_glsl]

/-- C8 amended: non-numeric input at an interactive prompt is handled —
the cockpit calculator reports it and exits 1, the skybox generator falls
back to its defaults branch (and both treat keyboard interrupt the same
way) — but numeric values are not range-checked: the skybox generator
silently accepts any integers, including RGB components outside 0-255, and
emits their conversions `value/255`. -/
theorem C8_prompt_validation :
    (∀ e1 e2 e3 : Ev Int,
      skybox_custom e1 e2 e3 = .usedDefaults ↔
        ¬(evVal e1 = true ∧ evVal e2 = true ∧ evVal e3 = true)) ∧
    (∀ e1 e2 e3 : Ev Int, skybox_exit e1 e2 e3 = 0) ∧
    (∀ e2 e3 : Ev ℚ, cockpit_exit (.entry .bad) e2 e3 = 1) ∧
    (∀ r g b : Int,
      skybox_custom (.entry (.num r)) (.entry (.num g)) (.entry (.num b))
        = .emitted r g b ((r : ℚ) / 255) ((g : ℚ) / 255) ((b : ℚ) / 255)) := by
  refine ⟨?_, fun e1 e2 e3 => rfl, fun e2 e3 => rfl, fun r g b => rfl⟩
  intro e1 e2 e3
  rcases e1 with e | _ <;> try rcases e with _ | v | _
  all_goals
    try (rcases e2 with e | _ <;> try rcases e with _ | w | _)
  all_goals
    try (rcases e3 with e | _ <;> try rcases e with _ | u | _)
  all_goals simp [skybox_custom, readNum, evVal]

/-! ## Claim C10: visualizer center coordinates -/

/-- C10: the printed center's x and z are true midpoints, but its y equals
the minimum y bound `-1.04289` (the source averages `min_bounds[1]` with
itself), not the midpoint of the y bounds; the Front, Side and Rear camera
suggestions all use that y. -/
theorem C10_visualizer_center_y :
    VisualizeModel.center_x
      = (VisualizeModel.min_bounds.x + VisualizeModel.max_bounds.x) / 2 ∧
    VisualizeModel.center_z
      = (VisualizeModel.min_bounds.z + VisualizeModel.max_bounds.z) / 2 ∧
    VisualizeModel.center_y = VisualizeModel.min_bounds.y ∧
    VisualizeModel.center_y = -1.04289 ∧
    VisualizeModel.center_y
      ≠ (VisualizeModel.min_bounds.y + VisualizeModel.max_bounds.y) / 2 ∧
    VisualizeModel.frontView.y = VisualizeModel.center_y ∧
    VisualizeModel.sideViewLeft.y = VisualizeModel.center_y ∧
    VisualizeModel.sideViewRight.y = VisualizeModel.center_y ∧
    VisualizeModel.rearView.y = VisualizeModel.center_y := by
  refine ⟨rfl, rfl, ?_, ?_, ?_, rfl, rfl, rfl, rfl⟩
  · norm_num [VisualizeModel.center_y, VisualizeModel.min_bounds]
  · norm_num [VisualizeModel.center_y, VisualizeModel.min_bounds]
  · norm_num [VisualizeModel.center_y, VisualizeModel.min_bounds,
      VisualizeModel.max_bounds]

end DownPour
